import Mathlib

/-!
Verification of the typed value-codec and dynamic-query subsystem of the
foundation repository, shallowly embedded from
`src/oracle/src/values.rs` and `src/server/src/application/query.rs`.

Cells are modelled as byte lists (native little-endian layout for the
numeric transmutes, as the spec directs for the wire format), indicators
as signed integers (-1 = SQL NULL, 0 = valid).  Rust `f64` values are
modelled by their 64-bit IEEE-754 bit pattern, since the codec only ever
copies the bits.  Rust panics (`unwrap`, `assert!`) and the out-of-bounds
`get_unchecked` accesses are made explicit as distinguished outcomes.
-/

/-- Modelled from the spec: `ResultValue` (src/oracle/src/statement.rs is not
under src/) is a read handle over one result cell: its data bytes, its
indicator and the fetched length. -/
structure ResultValue where
  data : List Nat
  indicator : Int
  len : Nat
deriving DecidableEq

/-- Modelled from the spec: `ResultValue::map_or` consults the indicator
first; -1 means SQL NULL and yields the default, otherwise the closure
receives the data bytes and the length. -/
def ResultValue.map_or {α : Type} (v : ResultValue) (dflt : α) (f : List Nat → Nat → α) : α :=
  if v.indicator = -1 then dflt else f v.data v.len

/-- Modelled from the spec: `ResultValue::map`, the optional variant of
`map_or`: NULL yields `none`. -/
def ResultValue.map {α : Type} (v : ResultValue) (f : List Nat → Nat → α) : Option α :=
  if v.indicator = -1 then none else some (f v.data v.len)

/-- Modelled from the spec: `ParamValue` (statement.rs is not under src/) is a
write handle over one parameter cell: data bytes, indicator, the cell's
declared capacity and the advisory length returned by the last writer. -/
structure ParamValue where
  data : List Nat
  indicator : Int
  capacity : Nat
  written_len : Nat
deriving DecidableEq

/-- Modelled from the spec: `ParamValue::project` lends the cell to the
writer.  The indicator is preset to 0 (valid); the writer receives the data
bytes and the indicator and returns the updated bytes, the (possibly
overridden) indicator and its advisory length. -/
def ParamValue.project (p : ParamValue) (writer : List Nat → Int → List Nat × Int × Nat) :
    ParamValue :=
  match writer p.data 0 with
  | (d, ind, l) => { p with data := d, indicator := ind, written_len := l }

/-- A fresh parameter cell of the given capacity: zeroed bytes, valid
indicator. -/
def freshParam (cap : Nat) : ParamValue :=
  { data := List.replicate cap 0, indicator := 0, capacity := cap, written_len := 0 }

/-- The result cell obtained from an encoded parameter cell: same bytes, same
indicator; the fetched length is the writer's advisory length (how the
variable-width path reports lengths). -/
def toResult (p : ParamValue) : ResultValue :=
  { data := p.data, indicator := p.indicator, len := p.written_len }

/-- Little-endian byte serialisation of a machine word of `n` bytes. -/
def toBytesLE : Nat → Nat → List Nat
  | 0, _ => []
  | n + 1, v => v % 256 :: toBytesLE n (v / 256)

/-- Little-endian read of the first `n` bytes of a cell. -/
def fromBytesLE : Nat → List Nat → Nat
  | 0, _ => 0
  | _ + 1, [] => 0
  | n + 1, b :: bs => b + 256 * fromBytesLE n bs

/-- Overwrite the first `w` bytes of a cell with the little-endian bytes of
`val`, as the numeric `transmute` writes do. -/
def writeAt (w : Nat) (val : Nat) (data : List Nat) : List Nat :=
  toBytesLE w val ++ data.drop w

/-- Two's-complement reading of a `w`-bit unsigned word, as the signed
`transmute` reads do. -/
def asSigned (w : Nat) (u : Nat) : Int :=
  if u < 2 ^ (w - 1) then (u : Int) else (u : Int) - 2 ^ w

/-- Rust `as u8` cast of a signed integer: the low byte. -/
def u8cast (x : Int) : Nat := (x % 256).toNat

-- values.rs, macro convert_sql_and_primitive, instantiated at each type.

/-- `impl From<&ResultValue> for i16` (values.rs:12-16 at i16): NULL decodes
to `Default::default()` = 0, otherwise the cell bytes are reinterpreted. -/
def i16_from (v : ResultValue) : Int :=
  v.map_or 0 (fun data _ => asSigned 16 (fromBytesLE 2 data))

/-- `impl From<&ResultValue> for Option<i16>` (values.rs:18-22 at i16). -/
def i16_from_opt (v : ResultValue) : Option Int :=
  v.map (fun data _ => asSigned 16 (fromBytesLE 2 data))

/-- `impl ValueProjector<i16> for i16` (values.rs:24-33 at i16): the writer
stores the value's bytes and returns advisory length 0. -/
def i16_project_value (self : Int) (p : ParamValue) : ParamValue :=
  p.project (fun data ind => (writeAt 2 ((self % 65536).toNat) data, ind, 0))

/-- `From<&ResultValue> for u16` (values.rs macro at u16). -/
def u16_from (v : ResultValue) : Nat :=
  v.map_or 0 (fun data _ => fromBytesLE 2 data)

/-- `From<&ResultValue> for Option<u16>` (values.rs macro at u16). -/
def u16_from_opt (v : ResultValue) : Option Nat :=
  v.map (fun data _ => fromBytesLE 2 data)

/-- `ValueProjector<u16> for u16` (values.rs macro at u16). -/
def u16_project_value (self : Nat) (p : ParamValue) : ParamValue :=
  p.project (fun data ind => (writeAt 2 self data, ind, 0))

/-- `From<&ResultValue> for i32` (values.rs macro at i32). -/
def i32_from (v : ResultValue) : Int :=
  v.map_or 0 (fun data _ => asSigned 32 (fromBytesLE 4 data))

/-- `From<&ResultValue> for Option<i32>` (values.rs macro at i32). -/
def i32_from_opt (v : ResultValue) : Option Int :=
  v.map (fun data _ => asSigned 32 (fromBytesLE 4 data))

/-- `ValueProjector<i32> for i32` (values.rs macro at i32). -/
def i32_project_value (self : Int) (p : ParamValue) : ParamValue :=
  p.project (fun data ind => (writeAt 4 ((self % 4294967296).toNat) data, ind, 0))

/-- `From<&ResultValue> for u32` (values.rs macro at u32). -/
def u32_from (v : ResultValue) : Nat :=
  v.map_or 0 (fun data _ => fromBytesLE 4 data)

/-- `ValueProjector<u32> for u32` (values.rs macro at u32). -/
def u32_project_value (self : Nat) (p : ParamValue) : ParamValue :=
  p.project (fun data ind => (writeAt 4 self data, ind, 0))

/-- `From<&ResultValue> for i64` (values.rs macro at i64). -/
def i64_from (v : ResultValue) : Int :=
  v.map_or 0 (fun data _ => asSigned 64 (fromBytesLE 8 data))

/-- `ValueProjector<i64> for i64` (values.rs macro at i64). -/
def i64_project_value (self : Int) (p : ParamValue) : ParamValue :=
  p.project (fun data ind => (writeAt 8 ((self % 18446744073709551616).toNat) data, ind, 0))

/-- `From<&ResultValue> for u64` (values.rs macro at u64). -/
def u64_from (v : ResultValue) : Nat :=
  v.map_or 0 (fun data _ => fromBytesLE 8 data)

/-- `ValueProjector<u64> for u64` (values.rs macro at u64). -/
def u64_project_value (self : Nat) (p : ParamValue) : ParamValue :=
  p.project (fun data ind => (writeAt 8 self data, ind, 0))

/-- `From<&ResultValue> for f64` (values.rs macro at f64), with the `f64`
value represented by its 64-bit pattern: the transmute copies the bits. -/
def f64_from (v : ResultValue) : Nat :=
  v.map_or 0 (fun data _ => fromBytesLE 8 data)

/-- `ValueProjector<f64> for f64` (values.rs macro at f64), bit-pattern
representation. -/
def f64_project_value (self : Nat) (p : ParamValue) : ParamValue :=
  p.project (fun data ind => (writeAt 8 self data, ind, 0))

-- values.rs:52-96, String and &str codecs.  A Rust String is modelled by its
-- byte list (the codec is byte pass-through).

/-- `impl From<&ResultValue> for String` (values.rs:52-64): NULL decodes to
the empty string, otherwise `len` bytes are copied from the cell. -/
def string_from (v : ResultValue) : List Nat :=
  v.map_or [] (fun data len => data.take len)

/-- `impl ValueProjector<String> for String` (values.rs:66-80) and the
identical `&str` projector (values.rs:82-96): the empty string sets the
indicator to -1, otherwise `self.len()` bytes are copied into the cell —
with no capacity check — and `self.len()` is returned as advisory length. -/
def string_project_value (self : List Nat) (p : ParamValue) : ParamValue :=
  p.project (fun data ind =>
    let str_len := self.length
    if str_len = 0 then (data, -1, str_len)
    else (self ++ data.drop str_len, ind, str_len))

-- values.rs:100-117, boolean codec (u16 in the database).

/-- `impl From<&ResultValue> for bool` (values.rs:100-105): reads the cell's
u16 (0 on NULL) and returns `int_val == 0`, exactly as the source does. -/
def bool_from (v : ResultValue) : Bool :=
  let int_val := v.map_or 0 (fun data _ => fromBytesLE 2 data)
  int_val == 0

/-- `impl ValueProjector<bool> for bool` (values.rs:107-117): writes the u16
1 for true and 0 for false. -/
def bool_project_value (self : Bool) (p : ParamValue) : ParamValue :=
  p.project (fun data ind =>
    let val : Nat := if self then 1 else 0
    (writeAt 2 val data, ind, 0))

-- values.rs:119-179, Date and DateTime codecs (chrono Date<Local> /
-- DateTime<Local> modelled by their civil components; asserts modelled as an
-- explicit panicked outcome, and the impure `Local::now()` NULL default as
-- an explicit `now` argument, the ambient clock at decode time).

/-- A chrono `Date<Local>` value: civil year, month, day. -/
structure SqlDate where
  year : Int
  month : Nat
  day : Nat
deriving DecidableEq

/-- A chrono `DateTime<Local>` value: civil date plus hour, minute, second. -/
structure SqlDateTime where
  year : Int
  month : Nat
  day : Nat
  hour : Nat
  minute : Nat
  second : Nat
deriving DecidableEq

/-- Outcome of a decode that may hit a Rust `assert!`. -/
inductive Decoded (α : Type) where
  | val : α → Decoded α
  | panicked : Decoded α
deriving DecidableEq

/-- `impl From<&ResultValue> for SqlDate` (values.rs:126-139): NULL decodes
to `Local::now().date()` — the clock — otherwise the 7-byte cell is read with
the century/year offsets; `assert!(len == 7)` panics on other lengths. -/
def SqlDate_from (now : SqlDate) (v : ResultValue) : Decoded SqlDate :=
  v.map_or (Decoded.val now) (fun vec len =>
    if len = 7 then
      let y : Int := ((vec.getD 0 0 : Int) - 100) * 100 + (vec.getD 1 0 : Int) - 100
      let m := vec.getD 2 0
      let d := vec.getD 3 0
      Decoded.val { year := y, month := m, day := d }
    else Decoded.panicked)

/-- `impl From<&ResultValue> for SqlDateTime` (values.rs:141-158): NULL
decodes to `Local::now()`; otherwise bytes 4-6 are taken directly as hour,
minute and second, with no -1 offset; `assert!(len == 11)` otherwise. -/
def SqlDateTime_from (now : SqlDateTime) (v : ResultValue) : Decoded SqlDateTime :=
  v.map_or (Decoded.val now) (fun vec len =>
    if len = 11 then
      let y : Int := ((vec.getD 0 0 : Int) - 100) * 100 + (vec.getD 1 0 : Int) - 100
      let m := vec.getD 2 0
      let d := vec.getD 3 0
      let hh := vec.getD 4 0
      let mm := vec.getD 5 0
      let ss := vec.getD 6 0
      Decoded.val { year := y, month := m, day := d, hour := hh, minute := mm, second := ss }
    else Decoded.panicked)

/-- `impl ValueProjector<SqlDate> for SqlDate` (values.rs:160-179): writes
century+100, year-of-century+100, month, day, and the constant time triple
1,1,1 for midnight (Rust `/` and `%` on i32 truncate toward zero). -/
def SqlDate_project_value (self : SqlDate) (p : ParamValue) : ParamValue :=
  p.project (fun data ind =>
    let century := u8cast (self.year.tdiv 100 + 100)
    let year := u8cast (self.year.tmod 100 + 100)
    let month := self.month % 256
    let day := self.day % 256
    ([century, year, month, day, 1, 1, 1] ++ data.drop 7, ind, 0))

-- query.rs: the dynamic-query layer.

/-- Modelled from the spec: the `SqlType` enumeration (src/oracle/src/types.rs
is not under src/); spec section 3 lists the closed set of variants. -/
inductive SqlType where
  | Int16 | Int32 | Int64 | UInt16 | UInt32 | UInt64
  | Float64 | Varchar | Date | DateTime | Boolean
deriving DecidableEq

/-- Modelled from the spec: catalog column metadata (the `metainfo` module is
not under src/); spec section 6 gives `{name, SqlType, ...}`. -/
structure ColumnInfo where
  name : String
  col_type : SqlType
deriving DecidableEq

/-- Modelled from the spec: catalog primary-key metadata
`{column_indices[]}` (spec section 6). -/
structure PrimaryKey where
  column_indices : List Nat
deriving DecidableEq

/-- Modelled from the spec: catalog table metadata (spec section 6). -/
structure TableInfo where
  name : String
  columns : List ColumnInfo
  primary_key : Option PrimaryKey
deriving DecidableEq

/-- `enum ParsedParameter` (query.rs:23-25): one variant per supported
filter-key type. -/
inductive ParsedParameter where
  | Int16 : Int → ParsedParameter
  | Int32 : Int → ParsedParameter
  | Int64 : Int → ParsedParameter
  | Varchar : String → ParsedParameter
deriving DecidableEq

/-- Outcome of `ParsedParameter::parse`: `Ok`, `Err(&'static str)`, or a Rust
panic from the unchecked `unwrap` on the numeric parse. -/
inductive ParseResult where
  | ok : ParsedParameter → ParseResult
  | err : String → ParseResult
  | panicked : ParseResult
deriving DecidableEq

/-- Digit accumulation of Rust's integer `from_str`: fails on any non-digit
character. -/
def parseDigits : List Char → Nat → Option Nat
  | [], acc => some acc
  | c :: cs, acc =>
    if c.isDigit then parseDigits cs (acc * 10 + (c.toNat - 48)) else none

/-- Rust `str::parse` for an integer type with range `lo..=hi`: an optional
sign followed by at least one digit, rejecting empty input, stray characters
and out-of-range values (Rust rejects overflow during accumulation; checking
the range of the accumulated value is extensionally the same). -/
def parseIntRust (lo hi : Int) (s : String) : Option Int :=
  let magnitude : List Char → Option Nat := fun cs =>
    if cs.isEmpty then none else parseDigits cs 0
  let value : Option Int :=
    match s.toList with
    | '-' :: rest => (magnitude rest).map (fun n => -(n : Int))
    | '+' :: rest => (magnitude rest).map (fun n => (n : Int))
    | cs => (magnitude cs).map (fun n => (n : Int))
  match value with
  | none => none
  | some v => if lo ≤ v ∧ v ≤ hi then some v else none

/-- `ParsedParameter::parse` (query.rs:152-172): integer types go through
`value.parse().unwrap()` — a panic on any unparseable value — Varchar is
taken verbatim, and every other `SqlType` falls to the catch-all
`Err("Not supported type for Primary key")`. -/
def ParsedParameter.parse (tp : SqlType) (value : String) : ParseResult :=
  match tp with
  | SqlType.Int16 =>
    match parseIntRust (-32768) 32767 value with
    | some val => ParseResult.ok (ParsedParameter.Int16 val)
    | none => ParseResult.panicked
  | SqlType.Int32 =>
    match parseIntRust (-2147483648) 2147483647 value with
    | some val => ParseResult.ok (ParsedParameter.Int32 val)
    | none => ParseResult.panicked
  | SqlType.Int64 =>
    match parseIntRust (-9223372036854775808) 9223372036854775807 value with
    | some val => ParseResult.ok (ParsedParameter.Int64 val)
    | none => ParseResult.panicked
  | SqlType.Varchar => ParseResult.ok (ParsedParameter.Varchar value)
  | _ => ParseResult.err "Not supported type for Primary key"

/-- The fields of `struct DynamicQuery` (query.rs:4-12) that its operations
read: the `oci_data_type` descriptor of `ColTypeInfo` is opaque to this
layer, so a column is carried as its `SqlType`. -/
structure DynamicQuery where
  table_name : String
  columns : List SqlType
  column_names : List String
  param_columns : List SqlType
  param_column_names : List String
  parsed_params : List ParsedParameter
deriving DecidableEq

/-- Outcome of a `DynamicQuery` constructor: `Ok`, `Err`, a propagated Rust
panic from the parameter parse, or undefined behaviour from an out-of-bounds
`get_unchecked`. -/
inductive CreateResult where
  | ok : DynamicQuery → CreateResult
  | err : String → CreateResult
  | panicked : CreateResult
  | ub : CreateResult
deriving DecidableEq

/-- `DynamicQuery::create_from_pk` (query.rs:39-63).  The source guards only
`pk_indices.len() > 1`, then does `pk_indices.get_unchecked(0)` and
`columns.get_unchecked(*pk_column_index)`: each unchecked access is modelled
by `List.get?`, with `none` mapped to the `ub` outcome. -/
def DynamicQuery.create_from_pk (schema_name : String) (table_info : TableInfo)
    (parameter : String) : CreateResult :=
  match table_info.primary_key with
  | none => CreateResult.err "Primary key not exists"
  | some pk =>
    if pk.column_indices.length > 1 then
      CreateResult.err "Primary key must have only ONE column"
    else
      match pk.column_indices.get? 0 with
      | none => CreateResult.ub
      | some pk_column_index =>
        match table_info.columns.get? pk_column_index with
        | none => CreateResult.ub
        | some pk_column =>
          let columns := table_info.columns.map (fun c => c.col_type)
          let column_names := table_info.columns.map (fun c => c.name)
          let param_column_names := [pk_column.name]
          let table_name := schema_name ++ "." ++ table_info.name
          match ParsedParameter.parse pk_column.col_type parameter with
          | ParseResult.ok parsed_parameter =>
            CreateResult.ok
              { table_name, columns, column_names,
                param_columns := [pk_column.col_type], param_column_names,
                parsed_params := [parsed_parameter] }
          | ParseResult.err e => CreateResult.err e
          | ParseResult.panicked => CreateResult.panicked

/-- Outcome of the parameter loop of `create_from_params`. -/
inductive ParamsLoop where
  | ok : List String → List SqlType → List ParsedParameter → ParamsLoop
  | err : String → ParamsLoop
  | panicked : ParamsLoop
deriving DecidableEq

/-- The `for (col_name, p) in parameters` loop of
`DynamicQuery::create_from_params` (query.rs:75-92): look each column up by
name (first match), parse the value, early-return on the first failure, and
accumulate names, column types and parsed parameters in declaration order. -/
def parseParameters (table_info : TableInfo) : List (String × String) → ParamsLoop
  | [] => ParamsLoop.ok [] [] []
  | (col_name, p) :: rest =>
    match table_info.columns.find? (fun c => c.name = col_name) with
    | none => ParamsLoop.err ("Not found column " ++ col_name)
    | some column =>
      match ParsedParameter.parse column.col_type p with
      | ParseResult.err e =>
        ParamsLoop.err ("Can not parse parameter value " ++ p ++ " for column " ++
          col_name ++ ": " ++ e)
      | ParseResult.panicked => ParamsLoop.panicked
      | ParseResult.ok parsed =>
        match parseParameters table_info rest with
        | ParamsLoop.ok names cols ps =>
          ParamsLoop.ok (col_name :: names) (column.col_type :: cols) (parsed :: ps)
        | ParamsLoop.err e => ParamsLoop.err e
        | ParamsLoop.panicked => ParamsLoop.panicked

/-- `DynamicQuery::create_from_params` (query.rs:65-98): result columns are
all table columns in catalog order; the parameter loop supplies the filter
columns; `table_name` is `schema.table`. -/
def DynamicQuery.create_from_params (schema_name : String) (table_info : TableInfo)
    (parameters : List (String × String)) : CreateResult :=
  match parseParameters table_info parameters with
  | ParamsLoop.err e => CreateResult.err e
  | ParamsLoop.panicked => CreateResult.panicked
  | ParamsLoop.ok param_column_names param_columns parsed_params =>
    CreateResult.ok
      { table_name := schema_name ++ "." ++ table_info.name
        columns := table_info.columns.map (fun c => c.col_type)
        column_names := table_info.columns.map (fun c => c.name)
        param_columns, param_column_names, parsed_params }

/-- `DynamicQuery::generate_sql` (query.rs:100-108): joined result columns,
then the enumerated filter columns with 1-based positional placeholders. -/
def DynamicQuery.generate_sql (self : DynamicQuery) : String :=
  let joined_result_columns := String.intercalate "," self.column_names
  let enumerated_param_columns :=
    self.param_column_names.enum.map (fun x => x.2 ++ " = :" ++ toString (x.1 + 1))
  let joined_param_columns := String.intercalate " AND " enumerated_param_columns
  "SELECT " ++ joined_result_columns ++ " FROM " ++ self.table_name ++
    " WHERE " ++ joined_param_columns

/-- The HR.EMP test table of spec section 8: `ID INT32` primary key,
`NAME VARCHAR`, `HIRED DATE`. -/
def empMeta : TableInfo :=
  { name := "EMP"
    columns := [ { name := "ID", col_type := SqlType.Int32 },
                 { name := "NAME", col_type := SqlType.Varchar },
                 { name := "HIRED", col_type := SqlType.Date } ]
    primary_key := some { column_indices := [0] } }

/-- The same table with a present primary key whose column-index list is
empty: the degenerate catalog shape that bypasses the guard of
`create_from_pk`. -/
def emptyPkMeta : TableInfo :=
  { empMeta with primary_key := some { column_indices := [] } }

/-- The `DynamicQuery` produced by
`create_from_params "HR" empMeta [("NAME", "ADA")]`. -/
def empQ : DynamicQuery :=
  { table_name := "HR.EMP"
    columns := [SqlType.Int32, SqlType.Varchar, SqlType.Date]
    column_names := ["ID", "NAME", "HIRED"]
    param_columns := [SqlType.Varchar]
    param_column_names := ["NAME"]
    parsed_params := [ParsedParameter.Varchar "ADA"] }

/-- C1: the claim states that decoding a non-NULL Boolean cell returns true
iff the stored u16 is non-zero.  The code (values.rs:103, `int_val == 0`)
does the opposite: on the cell holding the u16 value 1 with a valid
indicator it evaluates to false.  This also contradicts the codec's own
comment "NULL is False", so the code, not the claim, is wrong. -/
theorem C1_bool_decode_is_inverted :
    bool_from { data := [1, 0], indicator := 0, len := 2 } = false := by
  decide

/-- C2 counterexample: the claimed round trip fails as stated at the Boolean
value true — encoding true then decoding does not give true back. -/
theorem C2_bool_roundtrip_counterexample :
    bool_from (toResult (bool_project_value true (freshParam 2))) ≠ true := by
  decide

/-- C2 amended: for every value in the representable range of i16, u16, i32,
u32, i64, u64, f64 (as its 64-bit pattern) and String, decoding the cell
produced by encoding the value yields it again, for any cell capacity; for
bool the decode inversion of values.rs:103 makes the round trip yield the
negation instead. -/
theorem C2_roundtrip_amended :
    (∀ v : Int, -32768 ≤ v → v < 32768 → ∀ cap : Nat,
      i16_from (toResult (i16_project_value v (freshParam cap))) = v) ∧
    (∀ v : Nat, v < 65536 → ∀ cap : Nat,
      u16_from (toResult (u16_project_value v (freshParam cap))) = v) ∧
    (∀ v : Int, -2147483648 ≤ v → v < 2147483648 → ∀ cap : Nat,
      i32_from (toResult (i32_project_value v (freshParam cap))) = v) ∧
    (∀ v : Nat, v < 4294967296 → ∀ cap : Nat,
      u32_from (toResult (u32_project_value v (freshParam cap))) = v) ∧
    (∀ v : Int, -9223372036854775808 ≤ v → v < 9223372036854775808 → ∀ cap : Nat,
      i64_from (toResult (i64_project_value v (freshParam cap))) = v) ∧
    (∀ v : Nat, v < 18446744073709551616 → ∀ cap : Nat,
      u64_from (toResult (u64_project_value v (freshParam cap))) = v) ∧
    (∀ v : Nat, v < 18446744073709551616 → ∀ cap : Nat,
      f64_from (toResult (f64_project_value v (freshParam cap))) = v) ∧
    (∀ s : List Nat, ∀ cap : Nat,
      string_from (toResult (string_project_value s (freshParam cap))) = s) ∧
    (∀ b : Bool, ∀ cap : Nat,
      bool_from (toResult (bool_project_value b (freshParam cap))) = !b) := by
  refine ⟨?_, ?_, ?_, ?_, ?_, ?_, ?_, ?_, ?_⟩
  · intro v h1 h2 cap
    simp only [i16_from, i16_project_value, toResult, freshParam, ParamValue.project,
      ResultValue.map_or, writeAt, toBytesLE, fromBytesLE, asSigned]
    norm_num
    split <;> omega
  · intro v h1 cap
    simp only [u16_from, u16_project_value, toResult, freshParam, ParamValue.project,
      ResultValue.map_or, writeAt, toBytesLE, fromBytesLE]
    norm_num
    omega
  · intro v h1 h2 cap
    simp only [i32_from, i32_project_value, toResult, freshParam, ParamValue.project,
      ResultValue.map_or, writeAt, toBytesLE, fromBytesLE, asSigned]
    norm_num
    split <;> omega
  · intro v h1 cap
    simp only [u32_from, u32_project_value, toResult, freshParam, ParamValue.project,
      ResultValue.map_or, writeAt, toBytesLE, fromBytesLE]
    norm_num
    omega
  · intro v h1 h2 cap
    simp only [i64_from, i64_project_value, toResult, freshParam, ParamValue.project,
      ResultValue.map_or, writeAt, toBytesLE, fromBytesLE, asSigned]
    norm_num
    split <;> omega
  · intro v h1 cap
    simp only [u64_from, u64_project_value, toResult, freshParam, ParamValue.project,
      ResultValue.map_or, writeAt, toBytesLE, fromBytesLE]
    norm_num
    omega
  · intro v h1 cap
    simp only [f64_from, f64_project_value, toResult, freshParam, ParamValue.project,
      ResultValue.map_or, writeAt, toBytesLE, fromBytesLE]
    norm_num
    omega
  · intro s cap
    simp only [string_from, string_project_value, toResult, freshParam, ParamValue.project,
      ResultValue.map_or]
    by_cases h : s.length = 0
    · simp [h, List.eq_nil_of_length_eq_zero h]
    · simp [h, List.take_left]
  · intro b cap
    cases b <;>
      simp [bool_from, bool_project_value, toResult, freshParam, ParamValue.project,
        ResultValue.map_or, writeAt, toBytesLE, fromBytesLE]

/-- C2 witness: the amended round trip evaluated at -5 for i16, at a
two-byte string, and at true for bool. -/
theorem C2_roundtrip_amended_witness :
    i16_from (toResult (i16_project_value (-5) (freshParam 2))) = -5 ∧
    string_from (toResult (string_project_value [104, 105] (freshParam 4))) = [104, 105] ∧
    bool_from (toResult (bool_project_value true (freshParam 2))) = !true :=
  ⟨C2_roundtrip_amended.1 (-5) (by decide) (by decide) 2,
   C2_roundtrip_amended.2.2.2.2.2.2.2.1 [104, 105] 4,
   C2_roundtrip_amended.2.2.2.2.2.2.2.2 true 2⟩

/-- C3: the claim states that encoding a character value longer than the
cell's capacity fails with TruncationError and never writes past capacity.
The String writer (values.rs:74) copies all `self.len()` bytes with no
capacity check and `project_value` has no error channel at all: projecting
the 3-byte string "abc" into a 2-byte cell leaves 3 data bytes in a cell of
capacity 2 with a valid indicator and no error. -/
theorem C3_string_projector_overflows_capacity :
    (string_project_value [97, 98, 99] (freshParam 2)).data = [97, 98, 99] ∧
    (string_project_value [97, 98, 99] (freshParam 2)).capacity = 2 ∧
    (string_project_value [97, 98, 99] (freshParam 2)).indicator = 0 := by
  decide

/-- C4: the Date encode layout and the Date decode inversion hold as claimed
(1999-07-15 encodes to [119,199,7,15,1,1,1]; [120,100,1,1,0,0,0] decodes to
2000-01-01), but the DateTime decoder (values.rs:151-153) takes bytes 4-6
directly as hour/minute/second without subtracting 1: the cell a Date encode
produces for midnight decodes to time 01:01:01 instead of 00:00:00. -/
theorem C4_date_layout_datetime_missing_offset :
    (SqlDate_project_value { year := 1999, month := 7, day := 15 } (freshParam 7)).data
      = [119, 199, 7, 15, 1, 1, 1] ∧
    SqlDate_from { year := 0, month := 1, day := 1 }
        { data := [120, 100, 1, 1, 0, 0, 0], indicator := 0, len := 7 }
      = Decoded.val { year := 2000, month := 1, day := 1 } ∧
    SqlDateTime_from { year := 0, month := 1, day := 1, hour := 0, minute := 0, second := 0 }
        { data := [119, 199, 7, 15, 1, 1, 1, 0, 0, 0, 0], indicator := 0, len := 11 }
      = Decoded.val { year := 1999, month := 7, day := 15, hour := 1, minute := 1, second := 1 } := by
  decide

/-- C5: decoding indicator -1 yields the empty string for Varchar, 0 for a
non-optional numeric and none for an optional numeric, and encoding the
empty string sets the indicator to -1, all as claimed; but the Boolean NULL
decode returns true (values.rs:102-103 reads 0 on NULL and then tests
`int_val == 0`), where the claim — and the codec's own comment "NULL is
False" — require false. -/
theorem C5_null_decode_values :
    string_from { data := [], indicator := -1, len := 0 } = [] ∧
    (string_project_value [] (freshParam 4)).indicator = -1 ∧
    i32_from { data := [], indicator := -1, len := 0 } = 0 ∧
    i32_from_opt { data := [], indicator := -1, len := 0 } = none ∧
    bool_from { data := [], indicator := -1, len := 0 } = true := by
  decide

/-- C6: the claim states that an unparseable integer value yields a
ParseError result rather than a panic.  The code (query.rs:156,160,164) uses
`value.parse().unwrap()`: on the Int32 value "abc" the parse panics, and
`create_from_pk` on the HR.EMP table propagates that panic instead of
returning an error. -/
theorem C6_parse_panics_on_unparseable :
    ParsedParameter.parse SqlType.Int32 "abc" = ParseResult.panicked ∧
    DynamicQuery.create_from_pk "HR" empMeta "abc" = CreateResult.panicked := by
  decide

/-- C7: `ParsedParameter::parse` returns the unsupported-type error exactly
on the SqlTypes outside the signed-integer/varchar set, for every value
string: Int16, Int32 and Int64 values go to the numeric parse, Varchar is
accepted verbatim, and UInt16, UInt32, UInt64, Float64, Date, DateTime and
Boolean all fall to the catch-all rejection arm. -/
theorem C7_parse_filter_type_acceptance :
    ∀ (tp : SqlType) (value : String),
      ParsedParameter.parse tp value = ParseResult.err "Not supported type for Primary key"
      ↔ (tp = SqlType.UInt16 ∨ tp = SqlType.UInt32 ∨ tp = SqlType.UInt64 ∨
         tp = SqlType.Float64 ∨ tp = SqlType.Date ∨ tp = SqlType.DateTime ∨
         tp = SqlType.Boolean) := by
  intro tp value
  cases tp <;>
    first
    | (simp only [ParsedParameter.parse]; split <;> simp)
    | simp [ParsedParameter.parse]

/-- C7 witness: Float64 as a filter-key type is rejected with the
unsupported-type error. -/
theorem C7_parse_filter_type_acceptance_witness :
    ParsedParameter.parse SqlType.Float64 "x"
      = ParseResult.err "Not supported type for Primary key" :=
  (C7_parse_filter_type_acceptance SqlType.Float64 "x").mpr
    (Or.inr (Or.inr (Or.inr (Or.inl rfl))))

/-- When the parameter loop of `create_from_params` succeeds, the collected
filter-column names are the parameter names in declaration order. -/
theorem parseParameters_ok_names (t : TableInfo) (ps : List (String × String)) :
    ∀ names cols prs, parseParameters t ps = ParamsLoop.ok names cols prs →
      names = ps.map Prod.fst := by
  induction ps with
  | nil =>
    intro names cols prs h
    simp only [parseParameters] at h
    cases h
    rfl
  | cons hd tl ih =>
    intro names cols prs h
    obtain ⟨cn, pv⟩ := hd
    simp only [parseParameters] at h
    cases hf : t.columns.find? (fun c => c.name = cn) with
    | none => simp only [hf] at h; cases h
    | some column =>
      cases hp : ParsedParameter.parse column.col_type pv with
      | err e => simp only [hf, hp] at h; cases h
      | panicked => simp only [hf, hp] at h; cases h
      | ok parsed =>
        cases hr : parseParameters t tl with
        | err e => simp only [hf, hp, hr] at h; cases h
        | panicked => simp only [hf, hp, hr] at h; cases h
        | ok ns cs prs2 =>
          simp only [hf, hp, hr, ParamsLoop.ok.injEq] at h
          rw [← h.1, ih ns cs prs2 hr]
          rfl

/-- C8: every successfully constructed query generates exactly
"SELECT " followed by the comma-joined table columns in catalog order,
" FROM " followed by schema.table, and " WHERE " followed by the filter
columns joined by " AND " with 1-based positional placeholders in
declaration order. -/
theorem C8_generate_sql_shape (schema : String) (t : TableInfo)
    (ps : List (String × String)) (q : DynamicQuery)
    (h : DynamicQuery.create_from_params schema t ps = CreateResult.ok q) :
    q.generate_sql =
      "SELECT " ++ String.intercalate "," (t.columns.map (fun c => c.name)) ++
      " FROM " ++ (schema ++ "." ++ t.name) ++ " WHERE " ++
      String.intercalate " AND "
        ((ps.map Prod.fst).enum.map (fun x => x.2 ++ " = :" ++ toString (x.1 + 1))) := by
  simp only [DynamicQuery.create_from_params] at h
  cases hr : parseParameters t ps with
  | err e => simp only [hr] at h; cases h
  | panicked => simp only [hr] at h; cases h
  | ok names cols prs =>
    simp only [hr] at h
    cases h
    have hn := parseParameters_ok_names t ps names cols prs hr
    simp [DynamicQuery.generate_sql, hn, String.append_assoc]

/-- C8 witness: the query built from HR.EMP with the single filter NAME=ADA
generates the expected SELECT statement. -/
theorem C8_generate_sql_shape_witness :
    empQ.generate_sql = "SELECT ID,NAME,HIRED FROM HR.EMP WHERE NAME = :1" :=
  (C8_generate_sql_shape "HR" empMeta [("NAME", "ADA")] empQ (by decide)).trans (by decide)

/-- C9 counterexample: the Date decoder is not deterministic across runs —
decoding the very same NULL cell (same bytes, same indicator, same length)
under two different ambient clock values yields two different dates, because
values.rs:128 substitutes `Local::now().date()` for NULL. -/
theorem C9_null_date_decode_clock_dependent :
    SqlDate_from { year := 2020, month := 1, day := 1 }
        { data := [], indicator := -1, len := 7 }
      ≠ SqlDate_from { year := 2021, month := 5, day := 5 }
        { data := [], indicator := -1, len := 7 } := by
  decide

/-- C9 amended: every codec is a pure function of the cell bytes, indicator
and length except the Date/DateTime NULL path; in particular the Date and
DateTime decoders are clock-independent on every cell whose indicator is not
-1. -/
theorem C9_nonnull_decode_deterministic :
    ∀ (now1 now2 : SqlDate) (nowdt1 nowdt2 : SqlDateTime) (v : ResultValue),
      v.indicator ≠ -1 →
      SqlDate_from now1 v = SqlDate_from now2 v ∧
      SqlDateTime_from nowdt1 v = SqlDateTime_from nowdt2 v := by
  intro now1 now2 nowdt1 nowdt2 v h
  constructor <;> simp [SqlDate_from, SqlDateTime_from, ResultValue.map_or, h]

/-- C9 witness: two different clock values decode the same valid Date cell
identically. -/
theorem C9_nonnull_decode_deterministic_witness :
    SqlDate_from { year := 2020, month := 1, day := 1 }
        { data := [120, 100, 1, 1, 0, 0, 0], indicator := 0, len := 7 }
      = SqlDate_from { year := 2021, month := 5, day := 5 }
        { data := [120, 100, 1, 1, 0, 0, 0], indicator := 0, len := 7 } ∧
    SqlDateTime_from { year := 0, month := 1, day := 1, hour := 0, minute := 0, second := 0 }
        { data := [120, 100, 1, 1, 0, 0, 0], indicator := 0, len := 7 }
      = SqlDateTime_from { year := 9, month := 9, day := 9, hour := 9, minute := 9, second := 9 }
        { data := [120, 100, 1, 1, 0, 0, 0], indicator := 0, len := 7 } :=
  C9_nonnull_decode_deterministic
    { year := 2020, month := 1, day := 1 } { year := 2021, month := 5, day := 5 }
    { year := 0, month := 1, day := 1, hour := 0, minute := 0, second := 0 }
    { year := 9, month := 9, day := 9, hour := 9, minute := 9, second := 9 }
    { data := [120, 100, 1, 1, 0, 0, 0], indicator := 0, len := 7 } (by decide)

/-- C10: `create_from_pk` guards only the "more than one pk column" case
before its unchecked accesses.  With a present primary key: an empty
column-index list slips past the guard straight into the out-of-bounds
`get_unchecked(0)`; a single index pointing outside the column list reaches
the out-of-bounds `get_unchecked` on the columns; and exactly one in-bounds
index is the precondition under which no unchecked access goes out of
bounds. -/
theorem C10_create_from_pk_guard_gap (s param : String) (t : TableInfo)
    (pk : PrimaryKey) (h : t.primary_key = some pk) :
    (pk.column_indices = [] → DynamicQuery.create_from_pk s t param = CreateResult.ub) ∧
    (∀ i, pk.column_indices = [i] → t.columns.length ≤ i →
      DynamicQuery.create_from_pk s t param = CreateResult.ub) ∧
    (∀ i, pk.column_indices = [i] → i < t.columns.length →
      DynamicQuery.create_from_pk s t param ≠ CreateResult.ub) := by
  refine ⟨?_, ?_, ?_⟩
  · intro he
    simp [DynamicQuery.create_from_pk, h, he]
  · intro i he hlen
    simp [DynamicQuery.create_from_pk, h, he, List.getElem?_eq_none hlen]
  · intro i he hlen
    cases hg : t.columns[i]? with
    | none => rw [List.getElem?_eq_none_iff] at hg; omega
    | some col =>
      simp only [DynamicQuery.create_from_pk, h, he]
      simp only [List.length_cons, List.length_nil, List.get?]
      norm_num
      rw [hg]
      cases hp : ParsedParameter.parse col.col_type param <;> simp [hp]

/-- C10 witness: on HR.EMP with an empty pk column-index list the
construction reaches the out-of-bounds access, while the well-formed
single-column pk never does. -/
theorem C10_create_from_pk_guard_gap_witness :
    DynamicQuery.create_from_pk "HR" emptyPkMeta "7" = CreateResult.ub ∧
    DynamicQuery.create_from_pk "HR" empMeta "7" ≠ CreateResult.ub :=
  ⟨(C10_create_from_pk_guard_gap "HR" "7" emptyPkMeta { column_indices := [] } rfl).1 rfl,
   (C10_create_from_pk_guard_gap "HR" "7" empMeta { column_indices := [0] } rfl).2.2 0 rfl
     (by decide)⟩
